import Mathlib

/-!
Shallow embedding of `src/main.py`: a FastAPI service exposing read-only
access to the `m_user_companies` table.  The embedding models the ORM row
type `Company`, the response schema `CompanySchema`, the session provider
`get_db`, the three request handlers, and the startup configuration check.
Timestamps (`datetime`) are modelled as natural numbers.
-/

/-- A row of the `m_user_companies` table (ORM class `Company`, main.py lines 64-72). -/
structure Company where
  company_id : String
  company_name : String
  password : String
  company_token : String
  created_at : Nat
  updated_at : Nat
deriving Repr, DecidableEq

/-- The pydantic response schema `CompanySchema` (main.py lines 75-83):
every `Company` column except `password`. -/
structure CompanySchema where
  company_id : String
  company_name : String
  company_token : String
  created_at : Nat
  updated_at : Nat
deriving Repr, DecidableEq

/-- The row-to-schema mapping performed by pydantic `from_attributes`:
copies every field of the row except `password`. -/
def toSchema (c : Company) : CompanySchema :=
  { company_id := c.company_id
    company_name := c.company_name
    company_token := c.company_token
    created_at := c.created_at
    updated_at := c.updated_at }

/-- The database store: the rows of `m_user_companies` in the order the
query layer returns them. -/
abbrev Store := List Company

/-- `db.query(Company).all()` (main.py line 108): every row of the store. -/
def queryAll (store : Store) : List Company := store

/-- `db.query(Company).filter(Company.company_id == company_id).first()`
(main.py line 115): the first row whose `company_id` equals the argument,
if any. -/
def queryFirst (cid : String) (store : Store) : Option Company :=
  (store.filter (fun r => r.company_id == cid)).head?

/-- Result of the `SessionLocal()` call inside `get_db` (main.py line 90):
either a fresh session (identified by a number) or a raised
`SQLAlchemyError`. -/
inductive CreateResult where
  | ok (sessionId : Nat)
  | raiseSql (msg : String)
deriving Repr, DecidableEq

/-- Outcome of the code that runs at the `yield db` point of `get_db`:
the handler body either returns a value, raises a `SQLAlchemyError`
(data-access failure), or raises an `HTTPException` (e.g. the 404 of
`read_company`). -/
inductive UseResult (α : Type) where
  | ok (a : α)
  | sqlError (msg : String)
  | httpExc (status : Nat) (detail : String)
deriving Repr

/-- `get_db` (main.py lines 86-97).  `SessionLocal()` runs inside the
`try`; a `SQLAlchemyError` from it or from the body is caught and turned
into `HTTPException(500, "Database error")`; an `HTTPException` raised by
the body propagates unchanged; the `finally` block closes the session only
if one was created (`if db`).  The result pairs the operation outcome —
`Except` error is a raised `HTTPException` as (status, detail) — with the
list of sessions that were closed. -/
def get_db {α : Type} (create : CreateResult) (use : Nat → UseResult α) :
    Except (Nat × String) α × List Nat :=
  match create with
  | .raiseSql _ => (.error (500, "Database error"), [])
  | .ok s =>
    match use s with
    | .ok a => (.ok a, [s])
    | .sqlError _ => (.error (500, "Database error"), [s])
    | .httpExc st d => (.error (st, d), [s])

/-- A JSON response body, as produced by the three endpoints. -/
inductive Body where
  | greeting (message : String)
  | companies (cs : List CompanySchema)
  | company (c : CompanySchema)
  | error (detail : String)
deriving Repr, DecidableEq

/-- An HTTP response: status code and JSON body. -/
structure Response where
  status : Nat
  body : Body
deriving Repr, DecidableEq

/-- `read_root` (main.py lines 100-103): fixed greeting, no database access. -/
def read_root : Response := ⟨200, .greeting "Hello, POSTアプリのAdvanceだよ!"⟩

/-- Body of `read_companies` (main.py lines 106-109), run with the session's
view of the store: maps every row through the response schema. -/
def read_companies_body (store : Store) : UseResult (List CompanySchema) :=
  .ok ((queryAll store).map toSchema)

/-- Body of `read_company` (main.py lines 112-118): first matching row or
`HTTPException(404, "User not found")`. -/
def read_company_body (cid : String) (store : Store) : UseResult CompanySchema :=
  match queryFirst cid store with
  | none => .httpExc 404 "User not found"
  | some c => .ok (toSchema c)

/-- The three routes of the application. -/
inductive Request where
  | root
  | companies
  | company (cid : String)

/-- FastAPI's rendering of a handler outcome: a returned value becomes a
200 response with the encoded body, a raised `HTTPException` becomes a
response with its status and `detail`. -/
def renderExcept {α : Type} (encode : α → Body) : Except (Nat × String) α → Response
  | .ok a => ⟨200, encode a⟩
  | .error e => ⟨e.1, .error e.2⟩

/-- Per-request behaviour of the application: the root route never touches
the database; the two company routes acquire a session through `get_db`
and run their handler body. -/
def handle (req : Request) (create : CreateResult) (store : Store) : Response :=
  match req with
  | .root => read_root
  | .companies =>
      renderExcept .companies (get_db create (fun _ => read_companies_body store)).1
  | .company cid =>
      renderExcept .company (get_db create (fun _ => read_company_body cid store)).1

/-- Erase the password of a row: two stores equal after `List.map
scrubPassword` hold the same data except possibly for passwords. -/
def scrubPassword (c : Company) : Company := { c with password := "" }

/-- Environment variables read at startup (main.py lines 24-28);
`os.getenv` yields `none` for an absent variable. -/
structure Env where
  DB_HOST : Option String
  DB_NAME : Option String
  DB_USER : Option String
  DB_PASSWORD : Option String
  DB_SSL_CA : Option String

/-- Python truthiness of an `os.getenv` result, as tested by
`all([...])` (main.py line 33): `None` and the empty string are falsy. -/
def pyTruthy : Option String → Bool
  | none => false
  | some s => !(s == "")

/-- Outcome of module initialisation. -/
inductive StartupOutcome where
  | appStarted
  | configError (msg : String)
deriving Repr, DecidableEq

/-- Startup sequence (main.py lines 24-52): the configuration check at
line 33 raises `ValueError("Missing database configuration environment
variables")` before `app = FastAPI()` at line 52 ever runs; only when all
five variables are truthy is the application created. -/
def startup (env : Env) : StartupOutcome :=
  if pyTruthy env.DB_USER && pyTruthy env.DB_PASSWORD && pyTruthy env.DB_HOST
      && pyTruthy env.DB_NAME && pyTruthy env.DB_SSL_CA then
    .appStarted
  else
    .configError "Missing database configuration environment variables"

/-! ### Helper lemmas -/

/-- In a store with pairwise-distinct `company_id`s, the filtered-first
query at the id of a member row returns that row. -/
theorem queryFirst_of_mem (store : Store) (r : Company)
    (hu : store.Pairwise (fun a b => a.company_id ≠ b.company_id))
    (hr : r ∈ store) : queryFirst r.company_id store = some r := by
  induction store with
  | nil => cases hr
  | cons a tl ih =>
    rcases List.mem_cons.mp hr with h | h
    · subst h
      simp [queryFirst, List.filter_cons]
    · have hne : a.company_id ≠ r.company_id :=
        (List.pairwise_cons.mp hu).1 r h
      have htl := ih (List.pairwise_cons.mp hu).2 h
      simpa [queryFirst, List.filter_cons, hne] using htl

/-- When no row carries the requested id, the filtered-first query is empty. -/
theorem queryFirst_of_absent (store : Store) (cid : String)
    (h : ∀ r ∈ store, r.company_id ≠ cid) : queryFirst cid store = none := by
  unfold queryFirst
  have : store.filter (fun r => r.company_id == cid) = [] := by
    apply List.filter_eq_nil_iff.mpr
    intro r hr
    simpa using h r hr
  simp [this]

/-- `toSchema` ignores the password field. -/
theorem toSchema_scrub (c : Company) : toSchema (scrubPassword c) = toSchema c := by
  simp [toSchema, scrubPassword]

/-- `scrubPassword` keeps the id field. -/
theorem scrub_id (c : Company) : (scrubPassword c).company_id = c.company_id := rfl

/-! ### Claim theorems -/

/-- C1: for every company_id present in a store with unique ids, the
get-by-id operation returns status 200 whose body is exactly that row's
non-password fields. -/
theorem C1_get_by_id_found (store : Store) (r : Company) (s : Nat)
    (hu : store.Pairwise (fun a b => a.company_id ≠ b.company_id))
    (hr : r ∈ store) :
    handle (.company r.company_id) (.ok s) store = ⟨200, .company (toSchema r)⟩ := by
  have hq : read_company_body r.company_id store = .ok (toSchema r) := by
    unfold read_company_body
    rw [queryFirst_of_mem store r hu hr]
  simp [handle, get_db, hq, renderExcept]

/-- Witness for C1 at a concrete store. -/
theorem C1_witness :
    ([⟨"C1", "Acme", "secret", "tok1", 1, 2⟩] : Store).Pairwise
        (fun a b => a.company_id ≠ b.company_id) ∧
    (⟨"C1", "Acme", "secret", "tok1", 1, 2⟩ : Company) ∈
        ([⟨"C1", "Acme", "secret", "tok1", 1, 2⟩] : Store) ∧
    handle (.company "C1") (.ok 0) [⟨"C1", "Acme", "secret", "tok1", 1, 2⟩] =
      ⟨200, .company ⟨"C1", "Acme", "tok1", 1, 2⟩⟩ :=
  ⟨List.pairwise_singleton _ _, List.mem_singleton.mpr rfl,
    C1_get_by_id_found [⟨"C1", "Acme", "secret", "tok1", 1, 2⟩]
      ⟨"C1", "Acme", "secret", "tok1", 1, 2⟩ 0
      (List.pairwise_singleton _ _) (List.mem_singleton.mpr rfl)⟩

/-- C2: for every company_id absent from the store, the get-by-id
operation returns 404 with the generic message, and in particular not a
500. -/
theorem C2_get_by_id_absent (store : Store) (cid : String) (s : Nat)
    (h : ∀ r ∈ store, r.company_id ≠ cid) :
    handle (.company cid) (.ok s) store = ⟨404, .error "User not found"⟩ ∧
    (handle (.company cid) (.ok s) store).status ≠ 500 := by
  have hq : read_company_body cid store = .httpExc 404 "User not found" := by
    unfold read_company_body
    rw [queryFirst_of_absent store cid h]
  refine ⟨?_, ?_⟩ <;> simp [handle, get_db, hq, renderExcept]

/-- Witness for C2 at a concrete store and id. -/
theorem C2_witness :
    (∀ r ∈ ([⟨"C1", "Acme", "secret", "tok1", 1, 2⟩] : Store),
        r.company_id ≠ "C9") ∧
    handle (.company "C9") (.ok 0) [⟨"C1", "Acme", "secret", "tok1", 1, 2⟩] =
      ⟨404, .error "User not found"⟩ :=
  ⟨by decide,
    (C2_get_by_id_absent [⟨"C1", "Acme", "secret", "tok1", 1, 2⟩] "C9" 0
      (by decide)).1⟩

/-- C3: the list operation returns one record per row of the store (same
length), and the sequence of company_ids in the response equals the
sequence of company_ids in the store. -/
theorem C3_list_matches (s : Nat) (store : Store) :
    handle .companies (.ok s) store = ⟨200, .companies (store.map toSchema)⟩ ∧
    (store.map toSchema).length = store.length ∧
    (store.map toSchema).map CompanySchema.company_id =
      store.map Company.company_id := by
  refine ⟨rfl, List.length_map _ _, ?_⟩
  simp [toSchema]

/-- Mapping a scrubbed store through the response schema equals mapping
the original store: the schema never looks at the password. -/
theorem map_toSchema_scrub (s : Store) :
    (s.map scrubPassword).map toSchema = s.map toSchema := by
  rw [List.map_map]
  simp [Function.comp, toSchema_scrub]

/-- The filtered-first query, viewed through the response schema, is
unchanged by scrubbing passwords. -/
theorem queryFirst_scrub (cid : String) (s : Store) :
    (queryFirst cid (s.map scrubPassword)).map toSchema =
    (queryFirst cid s).map toSchema := by
  induction s with
  | nil => rfl
  | cons a tl ih =>
    unfold queryFirst at ih ⊢
    by_cases h : a.company_id = cid
    · simp [List.filter_cons, scrubPassword, h, toSchema]
    · simpa [List.filter_cons, scrubPassword, h] using ih

/-- C4: the externally-visible behaviour of every endpoint is independent
of the password column: two stores that agree after erasing passwords
produce identical responses on every request. -/
theorem C4_password_independent (req : Request) (create : CreateResult) (s1 s2 : Store)
    (h : s1.map scrubPassword = s2.map scrubPassword) :
    handle req create s1 = handle req create s2 := by
  cases req with
  | root => rfl
  | companies =>
    have hm : s1.map toSchema = s2.map toSchema := by
      rw [← map_toSchema_scrub s1, ← map_toSchema_scrub s2, h]
    simp [handle, read_companies_body, queryAll, hm]
  | company cid =>
    have hq : (queryFirst cid s1).map toSchema = (queryFirst cid s2).map toSchema := by
      rw [← queryFirst_scrub cid s1, ← queryFirst_scrub cid s2, h]
    have hb : read_company_body cid s1 = read_company_body cid s2 := by
      unfold read_company_body
      cases hq1 : queryFirst cid s1 with
      | none =>
        cases hq2 : queryFirst cid s2 with
        | none => rfl
        | some b => rw [hq1, hq2] at hq; simp at hq
      | some a =>
        cases hq2 : queryFirst cid s2 with
        | none => rw [hq1, hq2] at hq; simp at hq
        | some b =>
          rw [hq1, hq2] at hq
          have hs : toSchema a = toSchema b := by simpa using hq
          simp [hs]
    simp only [handle, hb]

/-- Witness for C4: two singleton stores differing only in password give
identical responses. -/
theorem C4_witness :
    ([⟨"C1", "Acme", "pw1", "tok1", 1, 2⟩] : Store).map scrubPassword =
      ([⟨"C1", "Acme", "pw2", "tok1", 1, 2⟩] : Store).map scrubPassword ∧
    handle (.company "C1") (.ok 0) [⟨"C1", "Acme", "pw1", "tok1", 1, 2⟩] =
      handle (.company "C1") (.ok 0) [⟨"C1", "Acme", "pw2", "tok1", 1, 2⟩] :=
  ⟨rfl, C4_password_independent (.company "C1") (.ok 0)
    [⟨"C1", "Acme", "pw1", "tok1", 1, 2⟩] [⟨"C1", "Acme", "pw2", "tok1", 1, 2⟩] rfl⟩

/-- C5: if any required connection parameter is absent from the
environment, startup raises the descriptive configuration error and the
application is never created. -/
theorem C5_missing_env_fails (env : Env)
    (h : env.DB_HOST = none ∨ env.DB_NAME = none ∨ env.DB_USER = none ∨
        env.DB_PASSWORD = none ∨ env.DB_SSL_CA = none) :
    startup env = .configError "Missing database configuration environment variables" := by
  unfold startup
  rcases h with h | h | h | h | h <;> rw [h] <;> simp [pyTruthy]

/-- Witness for C5: an environment with the host unset fails startup. -/
theorem C5_witness :
    ((Env.mk none (some "db") (some "user") (some "pw") (some "ca")).DB_HOST = none) ∧
    startup (Env.mk none (some "db") (some "user") (some "pw") (some "ca")) =
      .configError "Missing database configuration environment variables" :=
  ⟨rfl, C5_missing_env_fails (Env.mk none (some "db") (some "user") (some "pw") (some "ca"))
    (Or.inl rfl)⟩

/-- C6: whenever a session was created, it appears in the closed list on
every exit path of `get_db` — normal return, data-access failure, or
`HTTPException`. -/
theorem C6_session_closed {α : Type} (create : CreateResult) (use : Nat → UseResult α)
    (s : Nat) (h : create = .ok s) : (get_db create use).2 = [s] := by
  subst h
  cases hu : use s <;> simp [get_db, hu]

/-- Witness for C6 on a concrete session and handler body. -/
theorem C6_witness :
    ((.ok 5 : CreateResult) = .ok 5) ∧
    (get_db (.ok 5) (fun _ => (.ok 42 : UseResult Nat))).2 = [5] :=
  ⟨rfl, C6_session_closed (.ok 5) (fun _ => (.ok 42 : UseResult Nat)) 5 rfl⟩

/-- C7: a failure using the session surfaces as the generic
`HTTPException(500, "Database error")` with the session still closed, and
a failure acquiring the session surfaces the same way; neither is
swallowed. -/
theorem C7_db_failure_generic (α : Type) (use : Nat → UseResult α) (s : Nat)
    (m m' : String) (h : use s = .sqlError m) :
    (get_db (.ok s) use).1 = .error (500, "Database error") ∧
    (get_db (.ok s) use).2 = [s] ∧
    (get_db (.raiseSql m') use).1 = .error (500, "Database error") := by
  refine ⟨?_, ?_, rfl⟩ <;> simp [get_db, h]

/-- Witness for C7 on a concrete failing body. -/
theorem C7_witness :
    ((fun _ => (.sqlError "boom" : UseResult Nat)) 3 = .sqlError "boom") ∧
    (get_db (.ok 3) (fun _ => (.sqlError "boom" : UseResult Nat))).1 =
      .error (500, "Database error") :=
  ⟨rfl, (C7_db_failure_generic Nat (fun _ => (.sqlError "boom" : UseResult Nat))
    3 "boom" "x" rfl).1⟩

/-- C8: the root operation returns 200 with the fixed greeting and its
response does not depend on the session-creation outcome or on the store. -/
theorem C8_root_fixed (create create' : CreateResult) (store store' : Store) :
    handle .root create store = ⟨200, .greeting "Hello, POSTアプリのAdvanceだよ!"⟩ ∧
    handle .root create store = handle .root create' store' :=
  ⟨rfl, rfl⟩

/-- C9: in the spec's concrete scenario the get-by-id operation returns
200 with exactly the non-password fields for "C1" and 404 for "C2". -/
theorem C9_scenario :
    handle (.company "C1") (.ok 0) [⟨"C1", "Acme", "pw", "tok1", 1, 2⟩] =
      ⟨200, .company ⟨"C1", "Acme", "tok1", 1, 2⟩⟩ ∧
    handle (.company "C2") (.ok 0) [⟨"C1", "Acme", "pw", "tok1", 1, 2⟩] =
      ⟨404, .error "User not found"⟩ := by
  refine ⟨?_, ?_⟩ <;> rfl

/-- C10: when session creation itself fails, `get_db` closes nothing (the
close is guarded by `if db`) yet still reports the generic 500. -/
theorem C10_create_failure (α : Type) (m : String) (use : Nat → UseResult α) :
    get_db (.raiseSql m) use = (.error (500, "Database error"), []) := rfl
